import Mathlib

/-!
Verification of the string-encoding utilities and the client session logic of
a PostgreSQL driver (a fork of node-postgres).

The JavaScript sources are shallowly embedded: JavaScript values that can be
passed as query parameters become the inductive type `JSValue`; strings become
Lean `String` (lists of characters); Node `Buffer`s become `List Nat` (their
bytes); the stateful `Client` class becomes the record `ClientState` together
with pure step functions returning a new state and a list of observable
`Action`s (callback invocations, event emissions, transport writes).
-/

namespace PG

/-- Concatenation of the images of a list-valued function, used to model
per-character and per-byte expansions (JavaScript global regex replace and
hex encoding). -/
def concatMap (f : α → List β) : List α → List β
  | [] => []
  | a :: rest => f a ++ concatMap f rest

/-! ## JavaScript values (query parameters)

`src/lib/utils.js` distinguishes: `null`/`undefined`, `Buffer`s and other
`ArrayBuffer` views (modelled by their byte contents), `Date`s (modelled by
their `toISOString()` rendering), arrays, other objects (modelled by their
`JSON.stringify` rendering), and primitives. Numbers are modelled as integers
(`toString` of an integral JavaScript number agrees with `Int` rendering). -/

inductive JSValue where
  | jsNull
  | undef
  | bool (b : Bool)
  | num (n : Int)
  | str (s : String)
  | arr (elems : List JSValue)
  | bytes (data : List Nat)
  | date (isoString : String)
  | obj (jsonString : String)

/-- Global single-character regex replacement, as in
`s.replace(/x/g, rep)` for a one-character pattern. -/
def replaceAllChar (target : Char) (rep : List Char) : List Char → List Char
  | [] => []
  | c :: rest => (if c = target then rep else [c]) ++ replaceAllChar target rep rest

/-- Embeds `escapeElement` of `src/lib/utils.js`:
`const escaped = s.replace(/\\/g, '\\\\').replace(/"/g, '\\"'); return `"${escaped}"`;`. -/
def escapeElement (s : String) : String :=
  String.mk ('"' :: replaceAllChar '"' ['\\', '"'] (replaceAllChar '\\' ['\\', '\\'] s.data) ++ ['"'])

/-- Lowercase hex digit of a nibble, as produced by `Buffer.prototype.toString` with
encoding `hex`. -/
def hexDigit (n : Nat) : Char :=
  if n < 10 then Char.ofNat (48 + n) else Char.ofNat (87 + n)

/-- Two lowercase hex digits of one byte. -/
def hexByte (b : Nat) : List Char :=
  [hexDigit (b / 16 % 16), hexDigit (b % 16)]

/-- Embeds `buffer.toString('hex')`: lowercase hex rendering of a byte list. -/
def hexEncode (bs : List Nat) : String :=
  String.mk (concatMap hexByte bs)

/-- String conversion applied by `prepareValue` of `src/lib/utils.js` to values
that are not `null`/`undefined`, not byte views and not arrays: `Date`s via
`toISOString()`, plain objects via `JSON.stringify`, and remaining primitives
via `toString()`. The byte-view and array cases are never reached where this
function is used and return a dummy value. -/
def scalarString : JSValue → String
  | .date isoString => isoString
  | .obj jsonString => jsonString
  | .bool b => if b then String.mk ['t', 'r', 'u', 'e'] else String.mk ['f', 'a', 'l', 's', 'e']
  | .num n => toString n
  | .str s => s
  | .jsNull => String.mk []
  | .undef => String.mk []
  | .arr _ => String.mk []
  | .bytes _ => String.mk []

/-- Embeds the loop body of `arrayString` of `src/lib/utils.js`. The `first`
flag is true exactly when the loop index is `0` (no leading comma). The inner
match mirrors the if/else chain of the loop: `null`/`undefined` elements
render as `NULL`; nested arrays recurse; `ArrayBuffer` views render as
`\\x<hex>`; everything else renders as `escapeElement(prepareValue(el))`,
which for those cases is `escapeElement` of `scalarString` (see
`prepareValue_scalarString`). -/
def arrayItemsString : List JSValue → Bool → String
  | [], _ => String.mk []
  | v :: rest, first =>
    (if first then String.mk [] else String.mk [',']) ++
    (match v with
     | .jsNull => String.mk ['N', 'U', 'L', 'L']
     | .undef => String.mk ['N', 'U', 'L', 'L']
     | .arr l => String.mk ['\x7b'] ++ arrayItemsString l true ++ String.mk ['\x7d']
     | .bytes b => String.mk ['\\', '\\', 'x'] ++ hexEncode b
     | v => escapeElement (scalarString v)) ++
    arrayItemsString rest false

/-- Embeds `arrayString` of `src/lib/utils.js`: `'{'`, the comma-joined encoded
elements, `'}'`. -/
def arrayString (val : List JSValue) : String :=
  String.mk ['\x7b'] ++ arrayItemsString val true ++ String.mk ['\x7d']

/-- Embeds `prepareValue` of `src/lib/utils.js`. The result is again a
`JSValue` because the source returns `null`, a `Buffer` or a string. -/
def prepareValue : JSValue → JSValue
  | .jsNull => .jsNull
  | .undef => .jsNull
  | .bytes data => .bytes data
  | .date isoString => .str isoString
  | .arr elems => .str (arrayString elems)
  | .obj jsonString => .str jsonString
  | .bool b => .str (scalarString (.bool b))
  | .num n => .str (scalarString (.num n))
  | .str s => .str s

/-- Predicate for the scalar (primitive) values named by the idempotence
claim: `null`, `undefined`, booleans, numbers and strings. -/
def isScalarValue : JSValue → Bool
  | .jsNull => true
  | .undef => true
  | .bool _ => true
  | .num _ => true
  | .str _ => true
  | _ => false

/-- Embeds the character loop of `escapeLiteral` of `src/lib/utils.js`:
returns the escaped body (quotes doubled, backslashes doubled) and the
`hasBackslash` flag. -/
def escapeLiteralLoop : List Char → List Char × Bool
  | [] => ([], false)
  | c :: rest =>
    let r := escapeLiteralLoop rest
    if c = '\x27' then (c :: c :: r.1, r.2)
    else if c = '\\' then (c :: c :: r.1, true)
    else (c :: r.1, r.2)

/-- Embeds `escapeLiteral` of `src/lib/utils.js`: wrap the escaped body in
single quotes; when a backslash occurred, prefix the result with a space and
`E`. -/
def escapeLiteral (s : String) : String :=
  let r := escapeLiteralLoop s.data
  let quoted : List Char := '\x27' :: r.1 ++ ['\x27']
  if r.2 then String.mk (' ' :: 'E' :: quoted) else String.mk quoted

/-- Per-character expansion stated by the spec for `escapeLiteral`: single
quotes doubled, backslashes doubled, everything else unchanged. -/
def specLiteralChar (c : Char) : List Char :=
  if c = '\x27' then [c, c] else if c = '\\' then [c, c] else [c]

/-- Formalisation of the spec sentence for `escapeLiteral`, written from the
spec words: quote-wrap the per-character expansion and prefix a space and `E`
exactly when the input contains a backslash. -/
def specEscapeLiteral (s : String) : String :=
  (if s.data.any (fun c => c = '\\') then String.mk [' ', 'E'] else String.mk []) ++
    String.mk ['\x27'] ++ String.mk (concatMap specLiteralChar s.data) ++ String.mk ['\x27']

/-- Spec-side encoding of one array element, written from the spec words of
the array-literal sentence (with the amended quoting of textual elements):
`NULL` for null elements, recursion for nested arrays, `\\x<hex>` for byte
views, `escapeElement` of the scalar rendering otherwise. -/
def specArrayElement : JSValue → String
  | .jsNull => String.mk ['N', 'U', 'L', 'L']
  | .undef => String.mk ['N', 'U', 'L', 'L']
  | .arr l => arrayString l
  | .bytes b => String.mk ['\\', '\\', 'x'] ++ hexEncode b
  | v => escapeElement (scalarString v)

/-- Per-character expansion stated by the spec for `escapeElement`: backslash
and double quote are backslash-escaped, everything else unchanged. -/
def specElementChar (c : Char) : List Char :=
  if c = '\\' then ['\\', '\\'] else if c = '"' then ['\\', '"'] else [c]

/-! ## MD5 password authentication (`src/lib/crypto/utils.js`)

The MD5 digest itself lives in an external library (`node:crypto`); the
structural claims are proved for every digest function, so the embedding is
parametrised by `digest : List Nat → List Nat` (bytes to digest bytes). -/

/-- UTF-8 bytes of a string, as produced by `Buffer.from(s)` or a
`hash.update(s, 'utf-8')`. -/
def utf8Bytes (s : String) : List Nat :=
  s.toUTF8.toList.map (fun b => b.toNat)

/-- Embeds `md5` of `src/lib/crypto/utils.js`:
`createHash('md5').update(string, 'utf-8').digest('hex')`. -/
def md5 (digest : List Nat → List Nat) (s : String) : String :=
  hexEncode (digest (utf8Bytes s))

/-- Embeds `postgresMd5PasswordHash` of `src/lib/crypto/utils.js`:
inner hash of `password + user`, outer hash of the inner hex digest bytes
(`Buffer.from(inner)`) concatenated with the raw salt bytes, prefixed with
`md5`. -/
def postgresMd5PasswordHash (digest : List Nat → List Nat) (user password : String)
    (salt : List Nat) : String :=
  let inner := md5 digest (password ++ user)
  let outer := hexEncode (digest (utf8Bytes inner ++ salt))
  String.mk ['m', 'd', '5'] ++ outer

/-- Formalisation of the spec formula for the MD5 password message payload,
written from the spec words:
`"md5" + md5hex(md5hex(password + user) ++ salt)` with `md5hex` the lowercase
hex encoding of the digest. -/
def specMd5PasswordPayload (digest : List Nat → List Nat) (user password : String)
    (salt : List Nat) : String :=
  String.mk ['m', 'd', '5'] ++
    hexEncode (digest (utf8Bytes (hexEncode (digest (utf8Bytes (password ++ user)))) ++ salt))

/-- Lowercase hex alphabet: `0`-`9` and `a`-`f`. -/
def isLowerHexDigit (c : Char) : Bool :=
  (48 ≤ c.toNat && c.toNat ≤ 57) || (97 ≤ c.toNat && c.toNat ≤ 102)

/-! ## SSL pre-handshake (`Connection.connect`, transport source)

After `SSLRequest` is written, the transport reads one response byte and
switches on it. The observable steps are modelled as `SslAction`s; the `S`
case models the success path of `tls.connect` (options built from the ssl
config, then listeners attached and `sslconnect` emitted). -/

inductive SslAction where
  | upgradeTLS
  | emitSslConnect
  | endStream
  | emitSslError (msg : String)
deriving DecidableEq

/-- Error message for the `N` response byte. -/
def sslUnsupportedMsg : String := "The server does not support SSL connections"

/-- Error message for any other unexpected response byte. -/
def sslNegotiationMsg : String := "There was an error establishing an SSL connection"

/-- Embeds the `switch (responseCode)` of the transport source: `S` continues
with the TLS upgrade and emits `sslconnect`; `N` ends the stream and emits the
SSL-unsupported error; anything else (including `E`) ends the stream and emits
the SSL-negotiation error. -/
def sslResponseActions (responseCode : String) : List SslAction :=
  if responseCode = String.mk ['S'] then [.upgradeTLS, .emitSslConnect]
  else if responseCode = String.mk ['N'] then [.endStream, .emitSslError sslUnsupportedMsg]
  else [.endStream, .emitSslError sslNegotiationMsg]

/-- One-byte buffer decoded with `buffer.toString('utf8')`; for bytes up to
`0x7f` this is the corresponding ASCII character, and no byte at or above
`0x80` decodes to `S` or `N` either way, so the single-character model keeps
the switch outcomes. -/
def byteString (b : Nat) : String :=
  String.mk [Char.ofNat b]

/-! ## Client session state (`Client` of `src/lib/utils.js`)

Queries are identified by numbers (JavaScript compares them by object
identity). Callbacks are likewise identified by numbers. Observable effects
are collected as `Action`s in program order. -/

/-- Transport endpoint selected by `Client._connect` and `Client.cancel`. -/
inductive Address where
  | unixSocket (path : String)
  | tcp (port : Nat) (host : String)
deriving DecidableEq

/-- Observable effects of the client step functions. -/
inductive Action where
  | callbackError (cb : Nat) (msg : String)
  | emitError (msg : String)
  | queryError (q : Nat) (msg : String)
  | emitDrain
  | openTransport (addr : Address)
  | sendCancel (processID : Option Int) (secretKey : Option Int)
  | sendPassword (payload : String)
  | setConnectTimeout (millis : Nat)
deriving DecidableEq

/-- Mutable fields of `Client` touched by the embedded methods. -/
structure ClientState where
  connecting : Bool
  connected : Bool
  connectionError : Bool
  ending : Bool
  queryable : Bool
  connectionCallback : Option Nat
  activeQuery : Option Nat
  queryQueue : List Nat
  readyForQuery : Bool
  hasExecuted : Bool
  processID : Option Int
  secretKey : Option Int
deriving DecidableEq

/-- Embeds the address computation shared by `Client._connect` and
`Client.cancel`: when `host` is truthy and starts with `/`, connect to the
domain socket `host + '/.s.PGSQL.' + port`, otherwise to `(port, host)`. -/
def targetAddress (host : String) (port : Nat) : Address :=
  if host ≠ String.mk [] ∧ String.startsWith host (String.mk ['/']) then
    Address.unixSocket (host ++ String.mk ['/', '.', 's', '.', 'P', 'G', 'S', 'Q', 'L', '.'] ++ toString port)
  else
    Address.tcp port host

/-- Error issued when `connect` is called on a client that is already
connecting or connected. -/
def reuseClientMsg : String := "Client has already been connected. You cannot reuse a client."

/-- Error issued by `query` for a null or undefined config. -/
def nullQueryMsg : String := "Client was passed a null or undefined query"

/-- Error issued by `query` after a connection error. -/
def notQueryableMsg : String := "Client has encountered a connection error and is not queryable"

/-- Error issued by `query` after `end()`. -/
def clientClosedMsg : String := "Client was closed and is not queryable"

/-- Embeds `Client._errorAllQueries`: fail the active query (if any) and every
queued query with `msg`, then clear both. -/
def errorAllQueries (st : ClientState) (msg : String) : ClientState × List Action :=
  let activeActs := match st.activeQuery with
    | some q => [Action.queryError q msg]
    | none => []
  ({ st with activeQuery := none, queryQueue := [] },
    activeActs ++ st.queryQueue.map (fun q => Action.queryError q msg))

/-- Embeds `Client._handleErrorWhileConnecting`: once `_connectionError` is
set, every further error returns without any effect; the first error sets the
flag and either invokes the stored connect callback with the error or, when no
callback is stored, emits an `error` event. -/
def handleErrorWhileConnecting (st : ClientState) (msg : String) : ClientState × List Action :=
  if st.connectionError then (st, [])
  else
    let st1 := { st with connectionError := true }
    match st1.connectionCallback with
    | some cb => (st1, [Action.callbackError cb msg])
    | none => (st1, [Action.emitError msg])

/-- Embeds `Client._handleErrorEvent`: while connecting, delegate to
`handleErrorWhileConnecting`; otherwise mark the client not queryable, abort
all queries and emit the error. -/
def handleErrorEvent (st : ClientState) (msg : String) : ClientState × List Action :=
  if st.connecting then handleErrorWhileConnecting st msg
  else
    let st1 := { st with queryable := false }
    let r := errorAllQueries st1 msg
    (r.1, r.2 ++ [Action.emitError msg])

/-- Embeds `Client._handleErrorMessage`: while connecting, delegate to
`handleErrorWhileConnecting`; with no active query, treat the message as an
error event; otherwise fail the active query. -/
def handleErrorMessage (st : ClientState) (msg : String) : ClientState × List Action :=
  if st.connecting then handleErrorWhileConnecting st msg
  else
    match st.activeQuery with
    | none => handleErrorEvent st msg
    | some q => ({ st with activeQuery := none }, [Action.queryError q msg])

/-- An error delivered to the client: a transport `error` event or a server
`ErrorResponse` message. -/
inductive ErrorEvent where
  | transportError (msg : String)
  | errorResponse (msg : String)

/-- Message carried by an error event. -/
def errMsg : ErrorEvent → String
  | .transportError msg => msg
  | .errorResponse msg => msg

/-- Dispatches one error to the handler the connection wires it to
(`con.on('error', ...)` and `con.on('errorMessage', ...)`). -/
def dispatchError (st : ClientState) : ErrorEvent → ClientState × List Action
  | .transportError msg => handleErrorEvent st msg
  | .errorResponse msg => handleErrorMessage st msg

/-- Delivers a sequence of errors, accumulating the observable actions in
order. -/
def processErrors (st : ClientState) : List ErrorEvent → ClientState × List Action
  | [] => (st, [])
  | e :: rest =>
    let r := dispatchError st e
    let r2 := processErrors r.1 rest
    (r2.1, r.2 ++ r2.2)

/-- Number of connect-callback invocations among the observed actions. -/
def countCallbacks (acts : List Action) : Nat :=
  (acts.filter fun a => match a with | .callbackError _ _ => true | _ => false).length

/-- Embeds `Client.cancel(client, query)`. `host` and `port` are the
connection parameters of the client the method runs on; `target` is the state
of the client whose query is being cancelled. If `query` is the target's
active query, open a new transport and send a `CancelRequest` with the
target's saved `processID` and `secretKey`; else if `query` is still queued,
splice it out of the queue; otherwise do nothing. -/
def cancel (host : String) (port : Nat) (target : ClientState) (q : Nat) :
    ClientState × List Action :=
  if target.activeQuery = some q then
    (target, [Action.openTransport (targetAddress host port),
      Action.sendCancel target.processID target.secretKey])
  else if q ∈ target.queryQueue then
    ({ target with queryQueue := target.queryQueue.erase q }, [])
  else
    (target, [])

/-- Embeds `Client._connect(callback)`: the callback is stored first; then, if
the client is already connecting or connected, the callback is failed with the
reuse error and nothing else happens; otherwise `_connecting` is set, the
connection timeout is armed when configured, and the transport is opened. -/
def clientConnect (st : ClientState) (cb : Nat) (timeoutMillis : Nat) (host : String)
    (port : Nat) : ClientState × List Action :=
  let st0 := { st with connectionCallback := some cb }
  if st0.connecting || st0.connected then
    (st0, [Action.callbackError cb reuseClientMsg])
  else
    let st1 := { st0 with connecting := true }
    (st1,
      (if 0 < timeoutMillis then [Action.setConnectTimeout timeoutMillis] else []) ++
        [Action.openTransport (targetAddress host port)])

/-- Embeds `Client._pulseQueryQueue`, with the external
`Query.prototype.submit` modelled by `submit` (returning `some errMsg` when
submission fails). When ready, shift the queue into `activeQuery`; a failed
submission fails that query, restores readiness and pulses again; an empty
queue after at least one execution emits `drain`. -/
def pulseQueryQueue (submit : Nat → Option String) (st : ClientState) :
    ClientState × List Action :=
  if st.readyForQuery = true then
    match hq : st.queryQueue with
    | q :: rest =>
      let st1 :=
        { st with
          queryQueue := rest
          activeQuery := some q
          readyForQuery := false
          hasExecuted := true }
      match submit q with
      | some err =>
        let st2 := { st1 with readyForQuery := true }
        let r := pulseQueryQueue submit st2
        (r.1, Action.queryError q err :: r.2)
      | none => (st1, [])
    | [] =>
      let st1 := { st with activeQuery := none }
      if st.hasExecuted then (st1, [Action.emitDrain]) else (st1, [])
  else (st, [])
termination_by st.queryQueue.length
decreasing_by
  simp [hq]

/-- Outcome of one `Client.query` call. -/
inductive QueryOutcome where
  | threwTypeError (msg : String)
  | failed (q : Nat) (msg : String)
  | enqueued
deriving DecidableEq

/-- Embeds `Client.query(config)` for the queue-relevant paths: a null or
undefined config throws a `TypeError` before any state change; a client that
saw a connection error fails the query with `notQueryableMsg`; a client that
was ended fails it with `clientClosedMsg`; otherwise the query is pushed onto
the queue and the queue is pulsed. -/
def clientQuery (submit : Nat → Option String) (st : ClientState) (config : Option Nat) :
    QueryOutcome × ClientState × List Action :=
  match config with
  | none => (QueryOutcome.threwTypeError nullQueryMsg, st, [])
  | some q =>
    if st.queryable = false then (QueryOutcome.failed q notQueryableMsg, st, [])
    else if st.ending = true then (QueryOutcome.failed q clientClosedMsg, st, [])
    else
      let st1 := { st with queryQueue := st.queryQueue ++ [q] }
      let r := pulseQueryQueue submit st1
      (QueryOutcome.enqueued, r.1, r.2)

/-- Embeds `Client._handleAuthMD5Password` for a string password (the
password-provider indirection of `_checkPgPass` resolved): send a
`PasswordMessage` whose payload is `postgresMd5PasswordHash`. -/
def handleAuthMD5Password (digest : List Nat → List Nat) (user password : String)
    (salt : List Nat) : List Action :=
  [Action.sendPassword (postgresMd5PasswordHash digest user password salt)]

/-- Comma-prefixed concatenation: each element preceded by a comma. -/
def prefixJoin : List String → String
  | [] => String.mk []
  | x :: rest => String.mk [','] ++ x ++ prefixJoin rest

/-- Comma-separated concatenation, the `e1,e2,…` of the spec sentence for
array literals. -/
def specCommaJoin : List String → String
  | [] => String.mk []
  | x :: rest => x ++ prefixJoin rest

/-- Sample error message used by concrete witnesses. -/
def errA : String := "connection refused"

/-- Second sample error message used by concrete witnesses. -/
def errB : String := "later failure"

/-- Sample host used by concrete witnesses. -/
def exampleHost : String := "localhost"

/-- Client mid-connect with a stored connect callback: `_connecting` set, no
error seen yet. -/
def connectingState : ClientState :=
  ⟨true, false, false, false, true, some 0, none, [], false, false, none, none⟩

/-- Client that was ended cleanly: `_ending` set, still queryable. -/
def endedState : ClientState :=
  ⟨false, true, false, true, true, none, none, [], true, false, none, none⟩

/-- Client that saw a connection error and was then ended: `_ending` set and
not queryable. -/
def endedErrorState : ClientState :=
  ⟨false, true, false, true, false, none, none, [], true, false, none, none⟩

/-- Connected client busy with active query `5` and query `6` queued. -/
def activeTarget : ClientState :=
  ⟨false, true, false, false, true, none, some 5, [6], false, true, some 11, some 22⟩

/-- Connected client busy with active query `9` while queries `5` and `6` are
queued. -/
def queuedTarget : ClientState :=
  ⟨false, true, false, false, true, none, some 9, [5, 6], false, true, some 11, some 22⟩

/-- Connected idle client with nothing active or queued. -/
def idleTarget : ClientState :=
  ⟨false, true, false, false, true, none, none, [], true, true, some 11, some 22⟩

/-! ## Theorems -/

theorem mk_append (a b : List Char) : String.mk a ++ String.mk b = String.mk (a ++ b) := rfl

theorem concatMap_append (f : α → List β) (a b : List α) :
    concatMap f (a ++ b) = concatMap f a ++ concatMap f b := by
  induction a with
  | nil => rfl
  | cons x rest ih => simp [concatMap, ih]

theorem escapeLiteralLoop_eq (l : List Char) :
    escapeLiteralLoop l = (concatMap specLiteralChar l, l.any (fun c => c = '\\')) := by
  induction l with
  | nil => rfl
  | cons c rest ih =>
    by_cases h1 : c = '\x27'
    · subst h1
      simp [escapeLiteralLoop, concatMap, specLiteralChar, ih]
    · by_cases h2 : c = '\\'
      · subst h2
        simp [escapeLiteralLoop, concatMap, specLiteralChar, ih]
      · simp [escapeLiteralLoop, concatMap, specLiteralChar, h1, h2, ih]

/-- C5: for every string `s`, `escapeLiteral s` is `s` wrapped in single
quotes with single quotes doubled and backslashes doubled, prefixed with a
space and `E` exactly when `s` contains a backslash; in particular the input
`a\b'c` yields ` E'a\\b''c'`. -/
theorem escapeLiteral_spec :
    (∀ s : String, escapeLiteral s = specEscapeLiteral s) ∧
    escapeLiteral (String.mk ['a', '\\', 'b', '\x27', 'c']) =
      String.mk [' ', 'E', '\x27', 'a', '\\', '\\', 'b', '\x27', '\x27', 'c', '\x27'] := by
  constructor
  · intro s
    unfold escapeLiteral specEscapeLiteral
    rw [escapeLiteralLoop_eq]
    by_cases h : s.data.any (fun c => c = '\\')
    · apply String.ext
      simp [h]
    · apply String.ext
      simp [h]
  · decide

/-- C8: `prepareValue` is idempotent on scalar values (`null`, `undefined`,
booleans, numbers, strings). -/
theorem prepareValue_idempotent (v : JSValue) (h : isScalarValue v = true) :
    prepareValue (prepareValue v) = prepareValue v := by
  cases v with
  | jsNull => rfl
  | undef => rfl
  | bool b => rfl
  | num n => rfl
  | str s => rfl
  | arr l => simp [isScalarValue] at h
  | bytes d => simp [isScalarValue] at h
  | date i => simp [isScalarValue] at h
  | obj j => simp [isScalarValue] at h

/-- Witness for C8 at the concrete scalar `3`. -/
theorem prepareValue_idempotent_witness :
    isScalarValue (JSValue.num 3) = true ∧
      prepareValue (prepareValue (JSValue.num 3)) = prepareValue (JSValue.num 3) :=
  ⟨rfl, prepareValue_idempotent (JSValue.num 3) rfl⟩

theorem hexDigit_lower (n : Nat) (h : n < 16) : isLowerHexDigit (hexDigit n) = true := by
  interval_cases n <;> decide

theorem hexEncode_all_lower (bs : List Nat) :
    (hexEncode bs).data.all isLowerHexDigit = true := by
  induction bs with
  | nil => rfl
  | cons b rest ih =>
    simp only [hexEncode, concatMap, hexByte, List.all_append, List.all_cons, List.all_nil,
      Bool.and_eq_true] at *
    exact ⟨⟨hexDigit_lower _ (Nat.mod_lt _ (by norm_num)),
      hexDigit_lower _ (Nat.mod_lt _ (by norm_num)), trivial⟩, ih⟩

theorem hexEncode_length (bs : List Nat) : (hexEncode bs).length = 2 * bs.length := by
  induction bs with
  | nil => rfl
  | cons b rest ih =>
    simp only [hexEncode, concatMap, hexByte, String.length, List.length_append,
      List.length_cons, List.length_nil] at *
    omega

/-- C7: on `AuthenticationRequest(MD5Password, salt)` the client sends a
`PasswordMessage` whose payload is `"md5" + md5hex(md5hex(password + user) ++ salt)`,
for every digest function; `md5hex` renders the digest as lowercase hex of
twice the digest length. -/
theorem md5_password_message_spec :
    (∀ digest : List Nat → List Nat, ∀ user password : String, ∀ salt : List Nat,
      handleAuthMD5Password digest user password salt =
        [Action.sendPassword (specMd5PasswordPayload digest user password salt)]) ∧
    (∀ bs : List Nat, (hexEncode bs).data.all isLowerHexDigit = true) ∧
    (∀ bs : List Nat, (hexEncode bs).length = 2 * bs.length) :=
  ⟨fun _ _ _ _ => rfl, hexEncode_all_lower, hexEncode_length⟩

/-- C10: calling `query` with a null or undefined config throws a `TypeError`
synchronously and leaves the client state (in particular the query queue)
unchanged, with no observable action. -/
theorem null_query_type_error (submit : Nat → Option String) (st : ClientState) :
    clientQuery submit st none = (QueryOutcome.threwTypeError nullQueryMsg, st, []) := rfl

theorem replaceAllChar_append (t : Char) (r a b : List Char) :
    replaceAllChar t r (a ++ b) = replaceAllChar t r a ++ replaceAllChar t r b := by
  induction a with
  | nil => rfl
  | cons c rest ih => simp [replaceAllChar, ih]

theorem escapeElement_chars (l : List Char) :
    replaceAllChar '"' ['\\', '"'] (replaceAllChar '\\' ['\\', '\\'] l) =
      concatMap specElementChar l := by
  induction l with
  | nil => rfl
  | cons c rest ih =>
    by_cases h1 : c = '\\'
    · subst h1
      simp [replaceAllChar, replaceAllChar_append, concatMap, specElementChar, ih]
    · by_cases h2 : c = '"'
      · subst h2
        simp [replaceAllChar, replaceAllChar_append, concatMap, specElementChar, h1, ih]
      · simp [replaceAllChar, replaceAllChar_append, concatMap, specElementChar, h1, h2, ih]

theorem arrayItemsString_cons (v : JSValue) (rest : List JSValue) (first : Bool) :
    arrayItemsString (v :: rest) first =
      (if first then String.mk [] else String.mk [',']) ++ specArrayElement v ++
        arrayItemsString rest false := by
  cases v <;> simp [arrayItemsString, specArrayElement, arrayString, String.ext_iff]

theorem arrayItemsString_eq (l : List JSValue) :
    arrayItemsString l true = specCommaJoin (l.map specArrayElement) ∧
    arrayItemsString l false = prefixJoin (l.map specArrayElement) := by
  induction l with
  | nil =>
    constructor <;> simp [arrayItemsString, specCommaJoin, prefixJoin]
  | cons v rest ih =>
    constructor
    · rw [arrayItemsString_cons, ih.2]
      simp [specCommaJoin, String.ext_iff]
    · rw [arrayItemsString_cons, ih.2]
      simp [prefixJoin, String.ext_iff]

theorem arrayString_mixed_eval :
    arrayString [JSValue.num 1, JSValue.jsNull, JSValue.num 2] =
      String.mk ['\x7b', '"', '1', '"', ',', 'N', 'U', 'L', 'L', ',', '"', '2', '"', '\x7d'] := by
  simp [arrayString, arrayItemsString, escapeElement, replaceAllChar, scalarString]
  decide

/-- C1 counterexample: the array `[1, null, 2]` does not encode to the string
`{1,NULL,2}` with the integer elements unquoted; `arrayString` encodes the
integer elements double-quoted. -/
theorem arrayString_mixed_counterexample :
    arrayString [JSValue.num 1, JSValue.jsNull, JSValue.num 2] ≠
      String.mk ['\x7b', '1', ',', 'N', 'U', 'L', 'L', ',', '2', '\x7d'] := by
  rw [arrayString_mixed_eval]
  decide

/-- C1 amended: `arrayString` encodes an array as `{e1,e2,…}` where null and
undefined elements are the unquoted token `NULL`, nested arrays recurse, byte
views are `\\x<hex>`, and every other element (textual — including the string
rendering of numbers) is wrapped in double quotes with backslash and double
quote backslash-escaped; in particular `[1, null, 2]` encodes to
`{"1",NULL,"2"}` with the integer elements double-quoted. -/
theorem arrayString_encoding_amended :
    (∀ l : List JSValue, arrayString l =
      String.mk ['\x7b'] ++ specCommaJoin (l.map specArrayElement) ++ String.mk ['\x7d']) ∧
    (∀ l : List JSValue, prepareValue (JSValue.arr l) = JSValue.str (arrayString l)) ∧
    specArrayElement JSValue.jsNull = String.mk ['N', 'U', 'L', 'L'] ∧
    specArrayElement JSValue.undef = String.mk ['N', 'U', 'L', 'L'] ∧
    (∀ b : List Nat, specArrayElement (JSValue.bytes b) =
      String.mk ['\\', '\\', 'x'] ++ hexEncode b) ∧
    (∀ nested : List JSValue, specArrayElement (JSValue.arr nested) = arrayString nested) ∧
    (∀ s : String, specArrayElement (JSValue.str s) = escapeElement s) ∧
    (∀ s : String, escapeElement s =
      String.mk ('"' :: concatMap specElementChar s.data ++ ['"'])) ∧
    arrayString [JSValue.num 1, JSValue.jsNull, JSValue.num 2] =
      String.mk ['\x7b', '"', '1', '"', ',', 'N', 'U', 'L', 'L', ',', '"', '2', '"', '\x7d'] := by
  refine ⟨?_, fun _ => rfl, rfl, rfl, fun _ => rfl, fun _ => rfl, fun _ => rfl, ?_,
    arrayString_mixed_eval⟩
  · intro l
    unfold arrayString
    rw [(arrayItemsString_eq l).1]
  · intro s
    unfold escapeElement
    rw [escapeElement_chars]

set_option maxRecDepth 8192 in
/-- C2: after SSLRequest, every response byte leads to exactly one of three
outcomes: `S` upgrades the stream to TLS and emits `sslconnect`; `N` closes
the stream and fails with the SSL-unsupported error; any other byte
(including `E`) closes the stream and fails with the SSL-negotiation error.
The three outcomes are pairwise distinct. -/
theorem ssl_response_trichotomy :
    ∀ b : Nat, b < 256 →
      (b = 83 → sslResponseActions (byteString b) =
        [SslAction.upgradeTLS, SslAction.emitSslConnect]) ∧
      (b = 78 → sslResponseActions (byteString b) =
        [SslAction.endStream, SslAction.emitSslError sslUnsupportedMsg]) ∧
      (b ≠ 83 → b ≠ 78 → sslResponseActions (byteString b) =
        [SslAction.endStream, SslAction.emitSslError sslNegotiationMsg]) ∧
      ([SslAction.upgradeTLS, SslAction.emitSslConnect] ≠
        [SslAction.endStream, SslAction.emitSslError sslUnsupportedMsg] ∧
       [SslAction.upgradeTLS, SslAction.emitSslConnect] ≠
        [SslAction.endStream, SslAction.emitSslError sslNegotiationMsg] ∧
       [SslAction.endStream, SslAction.emitSslError sslUnsupportedMsg] ≠
        [SslAction.endStream, SslAction.emitSslError sslNegotiationMsg]) := by
  decide

/-- Witness for C2 at the response bytes `S`, `N` and `E`. -/
theorem ssl_response_trichotomy_witness :
    sslResponseActions (byteString 83) = [SslAction.upgradeTLS, SslAction.emitSslConnect] ∧
    sslResponseActions (byteString 78) =
      [SslAction.endStream, SslAction.emitSslError sslUnsupportedMsg] ∧
    sslResponseActions (byteString 69) =
      [SslAction.endStream, SslAction.emitSslError sslNegotiationMsg] :=
  ⟨(ssl_response_trichotomy 83 (by decide)).1 rfl,
   (ssl_response_trichotomy 78 (by decide)).2.1 rfl,
   (ssl_response_trichotomy 69 (by decide)).2.2.1 (by decide) (by decide)⟩

theorem processErrors_suppressed (evs : List ErrorEvent) (st : ClientState)
    (hc : st.connecting = true) (he : st.connectionError = true) :
    processErrors st evs = (st, []) := by
  induction evs with
  | nil => rfl
  | cons e rest ih =>
    have hd : dispatchError st e = (st, []) := by
      cases e <;> simp [dispatchError, handleErrorEvent, handleErrorMessage,
        handleErrorWhileConnecting, hc, he]
    simp [processErrors, hd, ih]

theorem handleErrorWhileConnecting_first (st : ClientState) (msg : String)
    (he : st.connectionError = false) :
    (handleErrorWhileConnecting st msg).1.connecting = st.connecting ∧
    (handleErrorWhileConnecting st msg).1.connectionError = true ∧
    (handleErrorWhileConnecting st msg).2 =
      (match st.connectionCallback with
       | some cb => [Action.callbackError cb msg]
       | none => [Action.emitError msg]) := by
  cases hcb : st.connectionCallback <;>
    simp [handleErrorWhileConnecting, he, hcb]

theorem dispatchError_connecting (st : ClientState) (e : ErrorEvent)
    (hc : st.connecting = true) :
    dispatchError st e = handleErrorWhileConnecting st (errMsg e) := by
  cases e <;> simp [dispatchError, handleErrorEvent, handleErrorMessage, errMsg, hc]

/-- C3: while the client is connecting with no prior connect-time error, only
the first delivered error produces an observable effect: the whole error
sequence yields exactly the single action of the first error (the stored
connect callback invoked with the error, or an `error` emission when no
callback is stored), so the connect callback is invoked with an error at most
once and every later error causes no callback invocation and no emission. -/
theorem connecting_first_error_only (st : ClientState) (e : ErrorEvent)
    (rest : List ErrorEvent) (hc : st.connecting = true) (he : st.connectionError = false) :
    (processErrors st (e :: rest)).2 = (dispatchError st e).2 ∧
    (processErrors st (e :: rest)).2.length = 1 ∧
    countCallbacks (processErrors st (e :: rest)).2 ≤ 1 := by
  have hd := dispatchError_connecting st e hc
  have h1 := handleErrorWhileConnecting_first st (errMsg e) he
  have hc1 : (dispatchError st e).1.connecting = true := by
    rw [hd, h1.1]
    exact hc
  have he1 : (dispatchError st e).1.connectionError = true := by
    rw [hd]
    exact h1.2.1
  have hsup := processErrors_suppressed rest (dispatchError st e).1 hc1 he1
  have hacts : (processErrors st (e :: rest)).2 = (dispatchError st e).2 := by
    simp [processErrors, hsup]
  refine ⟨hacts, ?_, ?_⟩
  · rw [hacts, hd, h1.2.2]
    cases hcb : st.connectionCallback <;> simp
  · rw [hacts, hd, h1.2.2]
    cases hcb : st.connectionCallback <;> simp [countCallbacks]

/-- Witness for C3: a connecting client with a stored callback receiving a
transport error followed by a server error message. -/
theorem connecting_first_error_only_witness :
    (processErrors connectingState
        [ErrorEvent.transportError errA, ErrorEvent.errorResponse errB]).2 =
      (dispatchError connectingState (ErrorEvent.transportError errA)).2 ∧
    (processErrors connectingState
        [ErrorEvent.transportError errA, ErrorEvent.errorResponse errB]).2.length = 1 ∧
    countCallbacks (processErrors connectingState
        [ErrorEvent.transportError errA, ErrorEvent.errorResponse errB]).2 ≤ 1 :=
  connecting_first_error_only connectingState (ErrorEvent.transportError errA)
    [ErrorEvent.errorResponse errB] rfl rfl

/-- C4: `cancel` either (active case) opens a new transport to the configured
host/port or domain-socket path and sends a `CancelRequest` with the target
client's saved `processID` and `secretKey` while leaving the target's state
untouched; or (queued case) only removes the query from the target's queue and
opens no connection; or does nothing. All fields other than the query queue
are preserved in every case. -/
theorem cancel_behaviour (host : String) (port : Nat) (target : ClientState) (q : Nat) :
    ((cancel host port target q).1.activeQuery = target.activeQuery ∧
     (cancel host port target q).1.readyForQuery = target.readyForQuery ∧
     (cancel host port target q).1.connecting = target.connecting ∧
     (cancel host port target q).1.connected = target.connected ∧
     (cancel host port target q).1.queryable = target.queryable ∧
     (cancel host port target q).1.ending = target.ending ∧
     (cancel host port target q).1.processID = target.processID ∧
     (cancel host port target q).1.secretKey = target.secretKey) ∧
    (target.activeQuery = some q →
      cancel host port target q =
        (target, [Action.openTransport (targetAddress host port),
          Action.sendCancel target.processID target.secretKey])) ∧
    (target.activeQuery ≠ some q → q ∈ target.queryQueue →
      cancel host port target q =
        ({ target with queryQueue := target.queryQueue.erase q }, [])) ∧
    (target.activeQuery ≠ some q → q ∉ target.queryQueue →
      cancel host port target q = (target, [])) := by
  unfold cancel
  by_cases h1 : target.activeQuery = some q
  · simp [h1]
  · by_cases h2 : q ∈ target.queryQueue
    · simp [h1, h2]
    · simp [h1, h2]

/-- Witness for C4 at concrete targets: the query is active, the query is
queued, the query is unknown. -/
theorem cancel_behaviour_witness :
    cancel exampleHost 5432 activeTarget 5 =
      (activeTarget, [Action.openTransport (targetAddress exampleHost 5432),
        Action.sendCancel (some 11) (some 22)]) ∧
    cancel exampleHost 5432 queuedTarget 5 = ({ queuedTarget with queryQueue := [6] }, []) ∧
    cancel exampleHost 5432 idleTarget 5 = (idleTarget, []) := by
  refine ⟨(cancel_behaviour exampleHost 5432 activeTarget 5).2.1 rfl, ?_,
    (cancel_behaviour exampleHost 5432 idleTarget 5).2.2.2 (by decide) (by decide)⟩
  have h := (cancel_behaviour exampleHost 5432 queuedTarget 5).2.2.1 (by decide) (by decide)
  rw [h]
  decide

/-- C9 counterexample: calling connect on an already-connecting client does
modify existing client state — the stored connect callback is overwritten. -/
theorem connect_reuse_counterexample :
    (clientConnect connectingState 1 0 exampleHost 5432).1 ≠ connectingState := by
  decide

/-- C9 amended: calling `_connect` on a client that is already connecting or
connected opens no transport and fails the supplied callback with the reuse
error; the flags, queue and transport are untouched, but the stored connect
callback is overwritten with the new one. -/
theorem connect_already_connected (st : ClientState) (cb t : Nat) (host : String)
    (port : Nat) (h : st.connecting = true ∨ st.connected = true) :
    clientConnect st cb t host port =
      ({ st with connectionCallback := some cb },
        [Action.callbackError cb reuseClientMsg]) := by
  unfold clientConnect
  rcases h with h | h <;> simp [h]

/-- Witness for C9 at a connecting client. -/
theorem connect_already_connected_witness :
    clientConnect connectingState 1 0 exampleHost 5432 =
      ({ connectingState with connectionCallback := some 1 },
        [Action.callbackError 1 reuseClientMsg]) :=
  connect_already_connected connectingState 1 0 exampleHost 5432 (Or.inl rfl)

/-- C6 counterexample: a client that was ended after a connection error fails
a new query with the not-queryable connection error, not with `ClientClosed`. -/
theorem query_after_end_counterexample :
    (clientQuery (fun _ => none) endedErrorState (some 7)).1 ≠
      QueryOutcome.failed 7 clientClosedMsg := by
  decide

/-- C6 amended: after `end()` has been called, a submitted query is never
enqueued and fails immediately: with `ClientClosed` when the client is still
queryable, and with the not-queryable connection error when a connection
error had also occurred; the state is unchanged either way. -/
theorem query_after_end (submit : Nat → Option String) (st : ClientState) (q : Nat)
    (h : st.ending = true) :
    clientQuery submit st (some q) =
      (QueryOutcome.failed q (if st.queryable then clientClosedMsg else notQueryableMsg),
        st, []) := by
  unfold clientQuery
  cases hq : st.queryable <;> simp [h, hq]

/-- Witness for C6 at a cleanly ended client. -/
theorem query_after_end_witness :
    clientQuery (fun _ => none) endedState (some 7) =
      (QueryOutcome.failed 7
          (if endedState.queryable then clientClosedMsg else notQueryableMsg),
        endedState, []) :=
  query_after_end (fun _ => none) endedState 7 rfl

end PG
